import Mathlib

/-
A shallow embedding of the signature discovery engine found in
src/scripts/generateEquationDatabase.ts, together with theorems about it.

Modelling decisions:
- JavaScript numbers are modelled exactly in fixed point: an integer counts
  units of one hundred-thousandth (1e-5) of the JavaScript value, so the
  source literal 1.5 is the model integer tenths 15 = 150000 and the absolute
  tolerance 0.0001 of the source is the model integer 10 (tolUnits).  Every
  numeric literal of the engine is a multiple of one tenth and every
  comparison is linear or a comparison of squares against the squared
  tolerance, so the fixed-point model decides every comparison exactly as
  exact real arithmetic would; scaling both sides of a squared comparison by
  the same factor does not change its outcome.
- Runtime objects carry an allocation identifier so that reference equality
  (the JavaScript triple-equals on objects) can be modelled; the factory and
  the validator thread a fresh-id counter in program order.
- The candidate operation itself is dynamic (looked up by name at runtime in
  the source) and is therefore a parameter of the model: a value of type
  MethodImpl receives the call target, the argument list and the current
  fresh-id counter, and either faults (none) or returns a result value
  together with the updated counter.  Runtime reflection (discoverMethods,
  which walks the prototype chain) is likewise represented by an abstract
  enumeration parameter handed to the database generator.
- Matrix elements are stored in the argument order of the set calls of the
  source.  The concrete matrices used by the factory are symmetric, and every
  comparison in the engine is pointwise over all elements, so the column-major
  storage of the underlying library is observationally identical here.
-/

/-- The closed set of value types of the catalog (type valueTypeName in the
source). -/
inductive valueTypeName where
  | Vector2
  | Vector3
  | Vector4
  | Quaternion
  | Euler
  | Matrix3
  | Matrix4
  | number
  | boolean
deriving DecidableEq

/-- Structural content of a runtime object value.  Components are JavaScript
numbers in fixed-point units of 1e-5. -/
inductive Value where
  | vec2 (x y : Int)
  | vec3 (x y z : Int)
  | vec4 (x y z w : Int)
  | quat (x y z w : Int)
  | euler (x y z : Int)
  | mat3 (e : List Int)
  | mat4 (e : List Int)
deriving DecidableEq

/-- A runtime value: a primitive, null, an object with an allocation id, or a
constructor function (the class object used as the target of static calls). -/
inductive RVal where
  | num (v : Int)
  | bool (b : Bool)
  | null
  | obj (id : Nat) (v : Value)
  | ctor (c : valueTypeName)
deriving DecidableEq

/-- The two instantiation variants of the factory. -/
inductive Variant where
  | A
  | B
deriving DecidableEq

/-- A JavaScript number of n tenths, in model units of 1e-5: the source
literal 1.5 is tenths 15, the literal 42 is tenths 420. -/
def tenths (n : Int) : Int := n * 10000

/-- The absolute tolerance 0.0001 of the source, in model units of 1e-5. -/
def tolUnits : Nat := 10

/-- The square of the tolerance, in squared model units: the source compares
the Vector3 distance against 1e-4, which over nonnegative reals is the same
as comparing the squared distance against 1e-8, i.e. against tolUnits
squared. -/
def tolSqUnits : Int := 100

/-- JavaScript triple-equals: value equality on primitives, reference (id)
equality on objects, class identity on constructor functions. -/
def jsEq (a b : RVal) : Bool :=
  match a, b with
  | .num x, .num y => decide (x = y)
  | .bool x, .bool y => x == y
  | .null, .null => true
  | .obj i _, .obj j _ => i == j
  | .ctor c, .ctor d => decide (c = d)
  | _, _ => false

/-- JavaScript falsiness of a runtime value. -/
def isFalsy (a : RVal) : Bool :=
  match a with
  | .null => true
  | .bool b => !b
  | .num v => decide (v = 0)
  | _ => false

/-- createInstance of the source: deterministic test instances of each type,
in two variants, with a configurable count of leading components kept
identical between the variants.  Object construction allocates a fresh id;
primitives allocate nothing.  The source default branch (returning null) is
unreachable because the type enum is closed. -/
def createInstance (type : valueTypeName) (variant : Variant)
    (keepFirstNComponentsIdentical : Nat) (fresh : Nat) : RVal × Nat :=
  match type with
  | .Vector2 =>
    if keepFirstNComponentsIdentical > 0 then
      let x : Int := tenths 15
      let y : Int :=
        if keepFirstNComponentsIdentical ≥ 2 then tenths 27
        else match variant with | .A => tenths 27 | .B => tenths 48
      (.obj fresh (.vec2 x y), fresh + 1)
    else
      match variant with
      | .A => (.obj fresh (.vec2 (tenths 15) (tenths 27)), fresh + 1)
      | .B => (.obj fresh (.vec2 (tenths 32) (tenths 48)), fresh + 1)
  | .Vector3 =>
    if keepFirstNComponentsIdentical > 0 then
      let x : Int := tenths 15
      let y : Int :=
        if keepFirstNComponentsIdentical ≥ 2 then tenths 27
        else match variant with | .A => tenths 27 | .B => tenths 58
      let z : Int :=
        if keepFirstNComponentsIdentical ≥ 3 then tenths 31
        else match variant with | .A => tenths 31 | .B => tenths 63
      (.obj fresh (.vec3 x y z), fresh + 1)
    else
      match variant with
      | .A => (.obj fresh (.vec3 (tenths 15) (tenths 27) (tenths 31)), fresh + 1)
      | .B => (.obj fresh (.vec3 (tenths 42) (tenths 58) (tenths 63)), fresh + 1)
  | .Vector4 =>
    if keepFirstNComponentsIdentical > 0 then
      let x : Int := tenths 15
      let y : Int :=
        if keepFirstNComponentsIdentical ≥ 2 then tenths 27
        else match variant with | .A => tenths 27 | .B => tenths 64
      let z : Int :=
        if keepFirstNComponentsIdentical ≥ 3 then tenths 31
        else match variant with | .A => tenths 31 | .B => tenths 75
      let w : Int :=
        if keepFirstNComponentsIdentical ≥ 4 then tenths 42
        else match variant with | .A => tenths 42 | .B => tenths 86
      (.obj fresh (.vec4 x y z w), fresh + 1)
    else
      match variant with
      | .A =>
        (.obj fresh (.vec4 (tenths 15) (tenths 27) (tenths 31) (tenths 42)), fresh + 1)
      | .B =>
        (.obj fresh (.vec4 (tenths 53) (tenths 64) (tenths 75) (tenths 86)), fresh + 1)
  | .Quaternion =>
    let effectiveKeep :=
      if keepFirstNComponentsIdentical > 0 then keepFirstNComponentsIdentical
      else 3
    let x : Int :=
      if effectiveKeep ≥ 1 then tenths 15
      else match variant with | .A => tenths 15 | .B => tenths 42
    let y : Int :=
      if effectiveKeep ≥ 2 then tenths 27
      else match variant with | .A => tenths 27 | .B => tenths 58
    let z : Int :=
      if effectiveKeep ≥ 3 then tenths 31
      else match variant with | .A => tenths 31 | .B => tenths 63
    let w : Int :=
      if effectiveKeep ≥ 4 then tenths 9
      else match variant with | .A => tenths 9 | .B => tenths 2
    (.obj fresh (.quat x y z w), fresh + 1)
  | .Euler =>
    match variant with
    | .A => (.obj fresh (.euler (tenths 5) (tenths 12) (tenths 8)), fresh + 1)
    | .B => (.obj fresh (.euler (tenths 11) (tenths 3) (tenths 17)), fresh + 1)
  | .Matrix3 =>
    match variant with
    | .A =>
      (.obj fresh (.mat3 [tenths 10, tenths 1, tenths 2, tenths 1, tenths 10,
        tenths 3, tenths 2, tenths 3, tenths 10]), fresh + 1)
    | .B =>
      (.obj fresh (.mat3 [tenths 10, tenths 4, tenths 5, tenths 4, tenths 10,
        tenths 6, tenths 5, tenths 6, tenths 10]), fresh + 1)
  | .Matrix4 =>
    match variant with
    | .A =>
      (.obj fresh (.mat4 [tenths 10, tenths 1, tenths 2, 0, tenths 1, tenths 10,
        tenths 3, 0, tenths 2, tenths 3, tenths 10, 0, 0, 0, 0, tenths 10]),
        fresh + 1)
    | .B =>
      (.obj fresh (.mat4 [tenths 10, tenths 4, tenths 5, 0, tenths 4, tenths 10,
        tenths 6, 0, tenths 5, tenths 6, tenths 10, 0, 0, 0, 0, tenths 10]),
        fresh + 1)
  | .number =>
    (.num (match variant with | .A => tenths 57 | .B => tenths 83), fresh)
  | .boolean =>
    (.bool (match variant with | .A => true | .B => false), fresh)

/-- getSmallerType of the source: the type with fewer components used to probe
under-specified parameters. -/
def getSmallerType (type : valueTypeName) : Option valueTypeName :=
  match type with
  | .Vector3 => some .Vector2
  | .Euler => some .Vector2
  | .Vector4 => some .Vector3
  | .Quaternion => some .Vector3
  | .Matrix4 => some .Matrix3
  | _ => none

/-- Return-type classification result of getTypeName in the source. -/
inductive RetType where
  | ofType (t : valueTypeName)
  | void
  | unknown
deriving DecidableEq

/-- getTypeName of the source: classify a runtime value structurally. -/
def getTypeName (value : RVal) : RetType :=
  match value with
  | .null => .void
  | .bool _ => .ofType .boolean
  | .num _ => .ofType .number
  | .obj _ (.vec2 _ _) => .ofType .Vector2
  | .obj _ (.vec3 _ _ _) => .ofType .Vector3
  | .obj _ (.vec4 _ _ _ _) => .ofType .Vector4
  | .obj _ (.quat _ _ _ _) => .ofType .Quaternion
  | .obj _ (.euler _ _ _) => .ofType .Euler
  | .obj _ (.mat3 _) => .ofType .Matrix3
  | .obj _ (.mat4 _) => .ofType .Matrix4
  | .ctor _ => .unknown

/-- Whether a classification is void or unknown (both are rejected by the
validator). -/
def isVoidOrUnknown (r : RetType) : Bool :=
  match r with
  | .void => true
  | .unknown => true
  | .ofType _ => false

/-- areResultsEqual of the source: type-specific approximate equality with
absolute tolerance 1e-4 for numbers, Vector3 (via distance), Quaternion,
Euler (component-wise) and Matrix4 (element-wise); everything else falls back
to triple-equals.  The source compares the Vector3 distance against 1e-4;
over nonnegative reals that is equivalent to comparing the squared distance
against 1e-8, which in squared model units is the comparison against
tolSqUnits computed here. -/
def areResultsEqual (a b : RVal) : Bool :=
  match a, b with
  | .num x, .num y => decide ((x - y).natAbs < tolUnits)
  | .obj _ (.vec3 x1 y1 z1), .obj _ (.vec3 x2 y2 z2) =>
    decide ((x1 - x2) * (x1 - x2) + (y1 - y2) * (y1 - y2) + (z1 - z2) * (z1 - z2)
      < tolSqUnits)
  | .obj _ (.quat x1 y1 z1 w1), .obj _ (.quat x2 y2 z2 w2) =>
    decide ((x1 - x2).natAbs < tolUnits) && decide ((y1 - y2).natAbs < tolUnits) &&
    decide ((z1 - z2).natAbs < tolUnits) && decide ((w1 - w2).natAbs < tolUnits)
  | .obj _ (.euler x1 y1 z1), .obj _ (.euler x2 y2 z2) =>
    decide ((x1 - x2).natAbs < tolUnits) && decide ((y1 - y2).natAbs < tolUnits) &&
    decide ((z1 - z2).natAbs < tolUnits)
  | .obj _ (.mat4 e1), .obj _ (.mat4 e2) =>
    (List.range 16).all (fun i => !decide ((e1.getD i 0 - e2.getD i 0).natAbs > tolUnits))
  | _, _ => jsEq a b

/-- The behavior of a candidate operation: given the call target, the argument
list and the current fresh allocation id, either fault (none) or return a
result value with the updated id. -/
abbrev MethodImpl := RVal → List RVal → Nat → Option (RVal × Nat)

/-- A validated equation signature (interface EquationSignature in the
source). -/
structure EquationSignature where
  className : valueTypeName
  methodName : String
  parameters : List valueTypeName
  returnType : RetType
  isStatic : Bool
deriving DecidableEq

/-- getKeepFirstN of the source (local to testMethod): Quaternion and Vector4
parameters keep their first three components identical across variants; all
other parameter types vary every component. -/
def getKeepFirstN (type : valueTypeName) : Nat :=
  match type with
  | .Quaternion => 3
  | .Vector4 => 3
  | _ => 0

/-- Build the parameter tuple of a given variant, as testMethod does:
one createInstance per declared type, with the keep-first-n rule given by
getKeepFirstN, allocating left to right. -/
def createParams : List valueTypeName → Variant → Nat → List RVal × Nat
  | [], _, c => ([], c)
  | t :: rest, v, c =>
    let r := createInstance t v (getKeepFirstN t) c
    let rs := createParams rest v r.2
    (r.1 :: rs.1, rs.2)

/-- Auxiliary recursion for createParamsSub, carrying the current position. -/
def createParamsSubAux :
    List valueTypeName → Nat → Nat → valueTypeName → Variant → Nat → List RVal × Nat
  | [], _, _, _, _, c => ([], c)
  | t :: rest, j, i, s, v, c =>
    let ty := if j = i then s else t
    let r := createInstance ty v (getKeepFirstN ty) c
    let rs := createParamsSubAux rest (j + 1) i s v r.2
    (r.1 :: rs.1, rs.2)

/-- Build the substituted parameter tuple used by the under-specification
check: position i gets the smaller type s, every other position keeps its
declared type, each with its own keep-first-n rule. -/
def createParamsSub (paramTypes : List valueTypeName) (i : Nat)
    (s : valueTypeName) (v : Variant) (c : Nat) : List RVal × Nat :=
  createParamsSubAux paramTypes 0 i s v c

/-- The call target: the owner instance itself, or the constructor function of
the owner type for a static call. -/
def mkTarget (className : valueTypeName) (owner : RVal) (isStatic : Bool) : RVal :=
  if isStatic then .ctor className else owner

/-- The owner instance created at the start of testMethod
(createInstance of the class name with default variant A and default keep 0),
allocated first, from fresh id 0. -/
def ownerAlloc (className : valueTypeName) : RVal × Nat :=
  createInstance className .A 0 0

/-- The variant-A parameter tuple of the initial call, allocated after the
owner. -/
def initialParams (paramTypes : List valueTypeName) (className : valueTypeName) :
    List RVal × Nat :=
  createParams paramTypes .A (ownerAlloc className).2

/-- The initial invocation of testMethod: the candidate operation applied to
the owner-derived target and the variant-A parameter tuple. -/
def initialResult (f : MethodImpl) (className : valueTypeName)
    (paramTypes : List valueTypeName) (isStatic : Bool) : Option (RVal × Nat) :=
  f (mkTarget className (ownerAlloc className).1 isStatic)
    (initialParams paramTypes className).1 (initialParams paramTypes className).2

/-- The second invocation of the differential test, exactly as in the source:
the parameter tuple is rebuilt with variant B (same keep-first-n rule), but
the second owner instance is rebuilt by createInstance of the class name with
the DEFAULT variant, which is A. -/
def secondInvocation (f : MethodImpl) (className : valueTypeName)
    (paramTypes : List valueTypeName) (isStatic : Bool) (c : Nat) :
    Option (RVal × Nat) :=
  let pB := createParams paramTypes .B c
  let ownerB := createInstance className .A 0 pB.2
  f (mkTarget className ownerB.1 isStatic) pB.1 ownerB.2

/-- Outcome of the differential (parameter-sensitivity) stage: none means the
candidate is rejected at this stage (second call faulted, or the two results
are equal within tolerance); some c means the stage passed with fresh counter
c.  The stage is skipped (passes trivially) when the arity is 0. -/
def differentialOutcome (f : MethodImpl) (className : valueTypeName)
    (paramTypes : List valueTypeName) (isStatic : Bool) (resultA : RVal)
    (c : Nat) : Option Nat :=
  if paramTypes.length > 0 then
    match secondInvocation f className paramTypes isStatic c with
    | none => none
    | some (resultB, c2) =>
      if areResultsEqual resultA resultB then none else some c2
  else some c

/-- The substituted variant-A parameter tuple of the under-specification check
at position i with smaller type s. -/
def subParamsA (paramTypes : List valueTypeName) (i : Nat) (s : valueTypeName)
    (c : Nat) : List RVal × Nat :=
  createParamsSub paramTypes i s .A c

/-- The substituted variant-B parameter tuple, allocated right after the
variant-A one, as in the source. -/
def subParamsB (paramTypes : List valueTypeName) (i : Nat) (s : valueTypeName)
    (c : Nat) : List RVal × Nat :=
  createParamsSub paramTypes i s .B (subParamsA paramTypes i s c).2

/-- The fresh owner instance created for the substituted variant-A call
(again default variant A). -/
def subOwnerA (className : valueTypeName) (paramTypes : List valueTypeName)
    (i : Nat) (s : valueTypeName) (c : Nat) : RVal × Nat :=
  createInstance className .A 0 (subParamsB paramTypes i s c).2

/-- The substituted variant-A invocation of the under-specification check. -/
def subInvocationA (f : MethodImpl) (className : valueTypeName)
    (paramTypes : List valueTypeName) (isStatic : Bool) (i : Nat)
    (s : valueTypeName) (c : Nat) : Option (RVal × Nat) :=
  f (mkTarget className (subOwnerA className paramTypes i s c).1 isStatic)
    (subParamsA paramTypes i s c).1 (subOwnerA className paramTypes i s c).2

/-- The fresh owner instance created for the substituted variant-B call,
allocated after the variant-A call returned counter c1. -/
def subOwnerB (className : valueTypeName) (c1 : Nat) : RVal × Nat :=
  createInstance className .A 0 c1

/-- The substituted variant-B invocation of the under-specification check. -/
def subInvocationB (f : MethodImpl) (className : valueTypeName)
    (paramTypes : List valueTypeName) (isStatic : Bool) (i : Nat)
    (s : valueTypeName) (c c1 : Nat) : Option (RVal × Nat) :=
  f (mkTarget className (subOwnerB className c1).1 isStatic)
    (subParamsB paramTypes i s c).1 (subOwnerB className c1).2

/-- The under-specification loop of testMethod over the indexed parameter
positions.  Returns (true, c) as soon as one substituted pair of calls
succeeds with differing results (the candidate is rejected); a fault in
either substituted call, or equal results, lets the loop continue to the next
position; positions whose type has no smaller type are skipped. -/
def underSpecLoop (f : MethodImpl) (className : valueTypeName)
    (paramTypes : List valueTypeName) (isStatic : Bool) :
    List (Nat × valueTypeName) → Nat → Bool × Nat
  | [], c => (false, c)
  | (i, t) :: rest, c =>
    match getSmallerType t with
    | none => underSpecLoop f className paramTypes isStatic rest c
    | some s =>
      match subInvocationA f className paramTypes isStatic i s c with
      | none =>
        underSpecLoop f className paramTypes isStatic rest
          (subOwnerA className paramTypes i s c).2
      | some (rA, c1) =>
        match subInvocationB f className paramTypes isStatic i s c c1 with
        | none =>
          underSpecLoop f className paramTypes isStatic rest
            (subOwnerB className c1).2
        | some (rB, c2) =>
          if areResultsEqual rA rB then
            underSpecLoop f className paramTypes isStatic rest c2
          else (true, c2)

/-- Pair every parameter type with its position, starting at a given index. -/
def indexedFrom : Nat → List valueTypeName → List (Nat × valueTypeName)
  | _, [] => []
  | j, t :: rest => (j, t) :: indexedFrom (j + 1) rest

/-- The body of testMethod once the candidate is known to be callable: the
initial variant-A call, the fluent-self and return-type checks, the
differential stage and the under-specification loop, in the order of the
source. -/
def validateCandidate (f : MethodImpl) (className : valueTypeName)
    (methodName : String) (paramTypes : List valueTypeName) (isStatic : Bool) :
    Option EquationSignature :=
  match initialResult f className paramTypes isStatic with
  | none => none
  | some (resultA, c) =>
    if jsEq resultA (ownerAlloc className).1 then none
    else if isVoidOrUnknown (getTypeName resultA) then none
    else
      match differentialOutcome f className paramTypes isStatic resultA c with
      | none => none
      | some c2 =>
        if (underSpecLoop f className paramTypes isStatic
              (indexedFrom 0 paramTypes) c2).1 then none
        else some ⟨className, methodName, paramTypes, getTypeName resultA, isStatic⟩

/-- testMethod of the source.  The candidate operation is handed in as an
optional MethodImpl: none models a name that is absent or not callable on the
target (the typeof check of the source).  A fault anywhere outside the
under-specification inner try is caught by the outer try and yields none. -/
def testMethod (impl : Option MethodImpl) (className : valueTypeName)
    (methodName : String) (paramTypes : List valueTypeName) (isStatic : Bool) :
    Option EquationSignature :=
  if isFalsy (mkTarget className (ownerAlloc className).1 isStatic) then none
  else
    match impl with
    | none => none
    | some f => validateCandidate f className methodName paramTypes isStatic

/-- Modelled from the spec: the second invocation of the differential test as
the specification describes it, with the second owner instance built using
variant B.  This definition follows the words of the spec and exists only to
be compared with secondInvocation, which follows the source. -/
def secondInvocationSpec (f : MethodImpl) (className : valueTypeName)
    (paramTypes : List valueTypeName) (isStatic : Bool) (c : Nat) :
    Option (RVal × Nat) :=
  let pB := createParams paramTypes .B c
  let ownerB := createInstance className .B 0 pB.2
  f (mkTarget className ownerB.1 isStatic) pB.1 ownerB.2

/-- Modelled from the spec: the differential stage with a variant-B second
owner, for comparison with differentialOutcome. -/
def differentialOutcomeSpec (f : MethodImpl) (className : valueTypeName)
    (paramTypes : List valueTypeName) (isStatic : Bool) (resultA : RVal)
    (c : Nat) : Option Nat :=
  if paramTypes.length > 0 then
    match secondInvocationSpec f className paramTypes isStatic c with
    | none => none
    | some (resultB, c2) =>
      if areResultsEqual resultA resultB then none else some c2
  else some c

/-- Modelled from the spec: testMethod as the specification describes its
differential step, with the second owner instance built using variant B.
Identical to testMethod except for the differential stage. -/
def testMethodSpecB (impl : Option MethodImpl) (className : valueTypeName)
    (methodName : String) (paramTypes : List valueTypeName) (isStatic : Bool) :
    Option EquationSignature :=
  if isFalsy (mkTarget className (ownerAlloc className).1 isStatic) then none
  else
    match impl with
    | none => none
    | some f =>
      match initialResult f className paramTypes isStatic with
      | none => none
      | some (resultA, c) =>
        if jsEq resultA (ownerAlloc className).1 then none
        else if isVoidOrUnknown (getTypeName resultA) then none
        else
          match differentialOutcomeSpec f className paramTypes isStatic resultA c with
          | none => none
          | some c2 =>
            if (underSpecLoop f className paramTypes isStatic
                  (indexedFrom 0 paramTypes) c2).1 then none
            else some ⟨className, methodName, paramTypes, getTypeName resultA, isStatic⟩

/-- The full catalog, in the order of generateParameterCombinations. -/
def catalogTypes : List valueTypeName :=
  [.Vector2, .Vector3, .Vector4, .Quaternion, .Euler, .Matrix3, .Matrix4,
   .number, .boolean]

/-- All ordered tuples of catalog types of a given length, first position
varying slowest, as the nested generator of the source produces them. -/
def tuplesOfLength : Nat → List (List valueTypeName)
  | 0 => [[]]
  | n + 1 => catalogTypes.flatMap (fun t => (tuplesOfLength n).map (t :: ·))

/-- generateParameterCombinations of the source: the empty tuple, then every
tuple of each length from 1 to maxParams, ascending by length. -/
def generateParameterCombinations (maxParams : Nat) : List (List valueTypeName) :=
  [] :: (List.range maxParams).flatMap (fun k => tuplesOfLength (k + 1))

/-- Wrap an optional accepted signature as a zero- or one-element list. -/
def optToList : Option EquationSignature → List EquationSignature
  | none => []
  | some s => [s]

/-- The signatures accepted for one parameter tuple: the instance-mode test,
then (when the tuple is nonempty and starts with the owner type) the
static-mode test on the tuple with its leading element stripped. -/
def candidateSigs (impl : Option MethodImpl) (className : valueTypeName)
    (methodName : String) (paramTypes : List valueTypeName) :
    List EquationSignature :=
  optToList (testMethod impl className methodName paramTypes false) ++
    (if paramTypes.head? = some className then
      optToList (testMethod impl className methodName (paramTypes.drop 1) true)
    else [])

/-- The signatures accepted during one pass of the per-method loop, at a fixed
parameter count: the source iterates the whole combination generator and
skips tuples of the wrong length. -/
def sigsAtCount (impl : Option MethodImpl) (className : valueTypeName)
    (methodName : String) (maxParams k : Nat) : List EquationSignature :=
  (((generateParameterCombinations maxParams).filter
      (fun pts => pts.length == k)).flatMap
    (candidateSigs impl className methodName))

/-- The per-method arity loop of generateDatabase: paramCount passes in
ascending order, accumulating accepted signatures; the pass list is broken
out of when the current pass accepted something (foundForThisCount) and an
instance-mode signature has been accepted so far (foundValidSignature, which
static-mode acceptances do not set). -/
def runCounts (impl : Option MethodImpl) (className : valueTypeName)
    (methodName : String) (maxParams : Nat) :
    List Nat → Bool → List EquationSignature
  | [], _ => []
  | k :: rest, foundValid =>
    let sigs := sigsAtCount impl className methodName maxParams k
    let foundValid2 := foundValid || sigs.any (fun s => !s.isStatic)
    if !sigs.isEmpty && foundValid2 then sigs
    else sigs ++ runCounts impl className methodName maxParams rest foundValid2

/-- The whole search for one method: paramCount from 0 to maxParams. -/
def runMethodSearch (impl : Option MethodImpl) (className : valueTypeName)
    (methodName : String) (maxParams : Nat) : List EquationSignature :=
  runCounts impl className methodName maxParams (List.range (maxParams + 1)) false

/-- The owner types iterated by generateDatabase. -/
def ownerTypes : List valueTypeName :=
  [.Vector2, .Vector3, .Vector4, .Quaternion, .Euler, .Matrix3, .Matrix4]

/-- The fixed maximum arity of the source (maxParams = 3). -/
def maxParamsConst : Nat := 3

/-- generateDatabase of the source, restricted to the accepted-signature list
(the version, timestamp and source-descriptor fields carry no signatures).
The callable surface is abstract: env gives the behavior of each
(owner type, method name) pair, methodsOf the names discoverMethods would
enumerate. -/
def generateDatabase (env : valueTypeName → String → Option MethodImpl)
    (methodsOf : valueTypeName → List String) : List EquationSignature :=
  ownerTypes.flatMap (fun cn =>
    (methodsOf cn).flatMap (fun mn =>
      runMethodSearch (env cn mn) cn mn maxParamsConst))

/-- Take elements of a list up to and including the first one satisfying the
predicate; the whole list when none does. -/
def takeThrough {α : Type} (p : α → Bool) : List α → List α
  | [] => []
  | a :: rest => if p a then [a] else a :: takeThrough p rest

/-- A candidate operation that reads the x component of its Vector3 owner and
ignores its arguments, faulting on any other target. -/
def ownerReadImpl : MethodImpl := fun tgt _ c =>
  match tgt with
  | .obj _ (.vec3 x _ _) => some (.num x, c)
  | _ => none

/-- A candidate operation that returns the x component (or the value) of its
first argument when it is a Vector2, Vector3 or number, faulting otherwise. -/
def paramReadImpl : MethodImpl := fun _ args c =>
  match args with
  | .obj _ (.vec2 x _) :: _ => some (.num x, c)
  | .obj _ (.vec3 x _ _) :: _ => some (.num x, c)
  | .num v :: _ => some (.num v, c)
  | _ => none

/-- A candidate operation that returns its first argument x component only
when the argument is a Vector3, faulting on anything else (in particular on
the substituted Vector2). -/
def vec3OnlyParamImpl : MethodImpl := fun _ args c =>
  match args with
  | [.obj _ (.vec3 x _ _)] => some (.num x, c)
  | _ => none

/-- A fluent candidate operation: it returns its own target. -/
def selfImpl : MethodImpl := fun tgt _ c => some (tgt, c)

/-- A candidate operation that faults on every call. -/
def throwingImpl : MethodImpl := fun _ _ _ => none

/-- A candidate operation that succeeds only on the very first allocated owner
(id 0) and faults on any other target: its initial call succeeds and its
differential re-invocation faults. -/
def ownerGateImpl : MethodImpl := fun tgt _ c =>
  match tgt with
  | .obj 0 _ => some (.num (tenths 10), c)
  | _ => none

/-- A constant candidate operation returning the number 42. -/
def constNumImpl : MethodImpl := fun _ _ c => some (.num (tenths 420), c)

/-- A candidate operation callable only statically: on the constructor target
it returns 42 when given no argument and echoes a single numeric argument,
and it faults on every instance-mode call. -/
def staticOnlyImpl : MethodImpl := fun tgt args c =>
  match tgt, args with
  | .ctor _, [] => some (.num (tenths 420), c)
  | .ctor _, [.num v] => some (.num v, c)
  | _, _ => none

/-- A fixed method name used by the concrete runs below. -/
def opName : String := "op"

/-- An environment exposing the constant operation on every owner type. -/
def constEnv : valueTypeName → String → Option MethodImpl :=
  fun _ _ => some constNumImpl

/-- A method enumeration exposing exactly one method name per owner type. -/
def singleMethodOf : valueTypeName → List String := fun _ => [opName]

/-- The target of a testMethod run is never falsy: every owner type yields a
truthy instance (objects, the number 5.7, the boolean true) and constructor
functions are truthy. -/
theorem targetNotFalsy (cn : valueTypeName) (st : Bool) :
    isFalsy (mkTarget cn (ownerAlloc cn).1 st) = false := by
  cases st <;> cases cn <;> decide

/-- A list with an element satisfying any is not empty. -/
theorem isEmpty_false_of_any {l : List EquationSignature}
    (h : l.any (fun s => !s.isStatic) = true) : l.isEmpty = false := by
  cases l with
  | nil => simp [List.any] at h
  | cons a t => rfl

/-- Calling testMethod with a present candidate runs validateCandidate: the
call target is never falsy. -/
theorem testMethod_some_eq (f : MethodImpl) (cn : valueTypeName) (mn : String)
    (pts : List valueTypeName) (st : Bool) :
    testMethod (some f) cn mn pts st = validateCandidate f cn mn pts st := by
  unfold testMethod
  rw [targetNotFalsy]
  rfl

/-- testMethod, once the initial call succeeded and passed the fluent and
return-type checks, is decided by the differential stage and the
under-specification loop. -/
theorem testMethod_eq_of_initial (f : MethodImpl) (cn : valueTypeName)
    (mn : String) (pts : List valueTypeName) (st : Bool) (rA : RVal) (c : Nat)
    (hinit : initialResult f cn pts st = some (rA, c))
    (hfluent : jsEq rA (ownerAlloc cn).1 = false)
    (hret : isVoidOrUnknown (getTypeName rA) = false) :
    testMethod (some f) cn mn pts st =
      match differentialOutcome f cn pts st rA c with
      | none => none
      | some c2 =>
        if (underSpecLoop f cn pts st (indexedFrom 0 pts) c2).1 then none
        else some ⟨cn, mn, pts, getTypeName rA, st⟩ := by
  rw [testMethod_some_eq]
  unfold validateCandidate
  rw [hinit]
  simp only [hfluent, hret, Bool.false_eq_true, if_false]

/-- C1 (counterexample): the differential test does not build its second
owner instance with variant B.  For a candidate operation that returns the x
component of its Vector3 owner and ignores its parameters, the source
testMethod rejects (the second owner is rebuilt with the default variant A,
so the two results coincide), while the spec-modelled testMethodSpecB, whose
second owner uses variant B, accepts the candidate. -/
theorem C1_counterexample :
    testMethod (some ownerReadImpl) .Vector3 opName [.number] false = none ∧
    testMethodSpecB (some ownerReadImpl) .Vector3 opName [.number] false
      = some ⟨.Vector3, opName, [.number], .ofType .number, false⟩ := by
  constructor <;> decide

/-- C1 (amended): for every candidate whose initial variant-A call succeeds
and passes the fluent and return-type checks, the differential test is
skipped exactly when the arity is 0 (the candidate is then accepted directly,
the under-specification loop being empty); for arity at least 1 the second
parameter tuple uses variant B under the shared-prefix rule while the second
owner instance is rebuilt with the default variant A (secondInvocation), and
the candidate is rejected if and only if the two results are equal within
tolerance or the under-specification stage later rejects it. -/
theorem C1_theorem (f : MethodImpl) (cn : valueTypeName) (mn : String)
    (pts : List valueTypeName) (st : Bool) (rA : RVal) (c : Nat)
    (hinit : initialResult f cn pts st = some (rA, c))
    (hfluent : jsEq rA (ownerAlloc cn).1 = false)
    (hret : isVoidOrUnknown (getTypeName rA) = false) :
    (pts = [] →
      testMethod (some f) cn mn pts st = some ⟨cn, mn, pts, getTypeName rA, st⟩) ∧
    (∀ rB c2, pts ≠ [] → secondInvocation f cn pts st c = some (rB, c2) →
      (testMethod (some f) cn mn pts st = none ↔
        (areResultsEqual rA rB = true ∨
          (underSpecLoop f cn pts st (indexedFrom 0 pts) c2).1 = true))) := by
  have h := testMethod_eq_of_initial f cn mn pts st rA c hinit hfluent hret
  constructor
  · intro hnil
    subst hnil
    rw [h]
    rfl
  · intro rB c2 hne hsec
    rw [h]
    have hlen : 0 < pts.length := List.length_pos.mpr hne
    unfold differentialOutcome
    rw [if_pos hlen, hsec]
    cases heq : areResultsEqual rA rB with
    | true => simp [heq]
    | false =>
      cases hu : (underSpecLoop f cn pts st (indexedFrom 0 pts) c2).1 with
      | true => simp [heq, hu]
      | false => simp [heq, hu]

/-- C1 (witness): a concrete arity-1 candidate that reads its numeric
parameter reaches the differential stage, produces differing results there,
passes the under-specification loop, and is therefore not rejected. -/
theorem C1_witness :
    testMethod (some paramReadImpl) .Vector3 opName [.number] false ≠ none := by
  have h := (C1_theorem paramReadImpl .Vector3 opName [.number] false
      (.num (tenths 57)) 1 (by decide) (by decide) (by decide)).2
    (.num (tenths 83)) 2 (by decide) (by decide)
  intro hnone
  rcases h.mp hnone with h1 | h1 <;> exact absurd h1 (by decide)

/-- C2 (counterexample): the comparison is not approximate for every catalog
type: two distinct Vector2, Vector4 or Matrix3 instances with identical
components fall through to reference equality and compare unequal. -/
theorem C2_counterexample :
    areResultsEqual (.obj 0 (.vec2 (tenths 15) (tenths 27)))
      (.obj 1 (.vec2 (tenths 15) (tenths 27))) = false ∧
    areResultsEqual (.obj 0 (.vec4 (tenths 15) (tenths 27) (tenths 31) (tenths 42)))
      (.obj 1 (.vec4 (tenths 15) (tenths 27) (tenths 31) (tenths 42))) = false ∧
    areResultsEqual
      (.obj 0 (.mat3 [tenths 10, tenths 1, tenths 2, tenths 1, tenths 10,
        tenths 3, tenths 2, tenths 3, tenths 10]))
      (.obj 1 (.mat3 [tenths 10, tenths 1, tenths 2, tenths 1, tenths 10,
        tenths 3, tenths 2, tenths 3, tenths 10])) = false := by
  constructor
  · decide
  constructor <;> decide

/-- C2 (amended): the result comparison is approximate with absolute
tolerance 1e-4 only for numbers, Vector3 (via distance), Quaternion, Euler
and Matrix4 — for those, distinct instances with identical or sub-tolerance
components compare equal, and a difference of one tolerance does not — while
Vector2, Vector4 and Matrix3 fall back to strict reference equality: the same
instance compares equal to itself but distinct instances with identical
components compare unequal. -/
theorem C2_theorem :
    areResultsEqual (.num (tenths 10)) (.num (tenths 10 + 5)) = true ∧
    areResultsEqual (.num (tenths 10)) (.num (tenths 10 + 10)) = false ∧
    areResultsEqual (.obj 0 (.vec3 (tenths 15) (tenths 27) (tenths 31)))
      (.obj 1 (.vec3 (tenths 15) (tenths 27) (tenths 31))) = true ∧
    areResultsEqual (.obj 0 (.quat (tenths 15) (tenths 27) (tenths 31) (tenths 9)))
      (.obj 1 (.quat (tenths 15) (tenths 27) (tenths 31) (tenths 9))) = true ∧
    areResultsEqual (.obj 0 (.euler (tenths 5) (tenths 12) (tenths 8)))
      (.obj 1 (.euler (tenths 5) (tenths 12) (tenths 8))) = true ∧
    areResultsEqual
      (.obj 0 (.mat4 [tenths 10, tenths 1, tenths 2, 0, tenths 1, tenths 10,
        tenths 3, 0, tenths 2, tenths 3, tenths 10, 0, 0, 0, 0, tenths 10]))
      (.obj 1 (.mat4 [tenths 10, tenths 1, tenths 2, 0, tenths 1, tenths 10,
        tenths 3, 0, tenths 2, tenths 3, tenths 10, 0, 0, 0, 0, tenths 10])) = true ∧
    areResultsEqual (.obj 0 (.vec2 (tenths 15) (tenths 27)))
      (.obj 0 (.vec2 (tenths 15) (tenths 27))) = true ∧
    areResultsEqual (.obj 0 (.vec2 (tenths 15) (tenths 27)))
      (.obj 1 (.vec2 (tenths 15) (tenths 27))) = false ∧
    areResultsEqual (.obj 0 (.vec4 (tenths 15) (tenths 27) (tenths 31) (tenths 42)))
      (.obj 1 (.vec4 (tenths 15) (tenths 27) (tenths 31) (tenths 42))) = false ∧
    areResultsEqual
      (.obj 0 (.mat3 [tenths 10, tenths 1, tenths 2, tenths 1, tenths 10,
        tenths 3, tenths 2, tenths 3, tenths 10]))
      (.obj 1 (.mat3 [tenths 10, tenths 1, tenths 2, tenths 1, tenths 10,
        tenths 3, tenths 2, tenths 3, tenths 10])) = false := by
  refine ⟨by decide, by decide, by decide, by decide, by decide, by decide,
    by decide, by decide, by decide, by decide⟩

/-- C4 (counterexample): createInstance for Vector4 with the default
(not explicitly overridden) shared prefix 0 varies every component between
the variants: the first three components of the A and B instances are not
identical. -/
theorem C4_counterexample :
    (createInstance .Vector4 .A 0 0).1
      = RVal.obj 0 (.vec4 (tenths 15) (tenths 27) (tenths 31) (tenths 42)) ∧
    (createInstance .Vector4 .B 0 0).1
      = RVal.obj 0 (.vec4 (tenths 53) (tenths 64) (tenths 75) (tenths 86)) ∧
    ¬(tenths 53 = tenths 15 ∧ tenths 64 = tenths 27 ∧ tenths 75 = tenths 31) := by
  refine ⟨by decide, by decide, by decide⟩

/-- C4 (amended): only Quaternion defaults to a shared prefix of 3 inside
createInstance (its default A and B instances agree on x, y, z and differ in
w); Vector4 instances built by createInstance with default shared prefix 0
differ in every component, and the shared prefix 3 for Vector4 is applied
only by the validator through getKeepFirstN when parameter instances are
built (under which the first three components agree and only w differs). -/
theorem C4_theorem :
    (createInstance .Quaternion .A 0 0).1
      = RVal.obj 0 (.quat (tenths 15) (tenths 27) (tenths 31) (tenths 9)) ∧
    (createInstance .Quaternion .B 0 0).1
      = RVal.obj 0 (.quat (tenths 15) (tenths 27) (tenths 31) (tenths 2)) ∧
    tenths 9 ≠ tenths 2 ∧
    getKeepFirstN .Vector4 = 3 ∧
    getKeepFirstN .Quaternion = 3 ∧
    (createInstance .Vector4 .A (getKeepFirstN .Vector4) 0).1
      = RVal.obj 0 (.vec4 (tenths 15) (tenths 27) (tenths 31) (tenths 42)) ∧
    (createInstance .Vector4 .B (getKeepFirstN .Vector4) 0).1
      = RVal.obj 0 (.vec4 (tenths 15) (tenths 27) (tenths 31) (tenths 86)) ∧
    tenths 42 ≠ tenths 86 := by
  refine ⟨by decide, by decide, by decide, by decide, by decide, by decide,
    by decide, by decide⟩

/-- C5: one step of the under-specification loop at a position whose declared
type has a smaller type: a fault in either substituted invocation lets the
loop continue to the remaining positions, substituted results that are equal
within tolerance also let it continue, and the whole candidate is rejected
(the loop returns true) exactly when both substituted invocations succeed
with results that differ beyond tolerance. -/
theorem C5_theorem (f : MethodImpl) (cn : valueTypeName)
    (pts : List valueTypeName) (st : Bool) (i : Nat) (t : valueTypeName)
    (rest : List (Nat × valueTypeName)) (c : Nat) (s : valueTypeName)
    (hS : getSmallerType t = some s) :
    (subInvocationA f cn pts st i s c = none →
      underSpecLoop f cn pts st ((i, t) :: rest) c
        = underSpecLoop f cn pts st rest (subOwnerA cn pts i s c).2) ∧
    (∀ rA c1, subInvocationA f cn pts st i s c = some (rA, c1) →
      (subInvocationB f cn pts st i s c c1 = none →
        underSpecLoop f cn pts st ((i, t) :: rest) c
          = underSpecLoop f cn pts st rest (subOwnerB cn c1).2) ∧
      (∀ rB c2, subInvocationB f cn pts st i s c c1 = some (rB, c2) →
        underSpecLoop f cn pts st ((i, t) :: rest) c
          = if areResultsEqual rA rB then underSpecLoop f cn pts st rest c2
            else (true, c2))) := by
  constructor
  · intro hA
    simp only [underSpecLoop, hS, hA]
  · intro rA c1 hA
    constructor
    · intro hB
      simp only [underSpecLoop, hS, hA, hB]
    · intro rB c2 hB
      simp only [underSpecLoop, hS, hA, hB]

/-- C5 (witness): with the parameter-reading operation on an owner of type
Vector3 and the declared tuple consisting of one Vector3, substituting the
smaller type Vector2 at position 0 succeeds in both variants with differing
results, so the loop rejects the candidate. -/
theorem C5_witness :
    underSpecLoop paramReadImpl .Vector3 [.Vector3] false [(0, .Vector3)] 0
      = (true, 4) := by
  have h := ((C5_theorem paramReadImpl .Vector3 [.Vector3] false 0 .Vector3 []
      0 .Vector2 (by decide)).2 (.num (tenths 15)) 3 (by decide)).2
    (.num (tenths 32)) 4 (by decide)
  rw [h]
  decide

/-- C6: whenever the value returned by the initial invocation is
reference-identical to the owner instance created for the call, testMethod
rejects the candidate, whatever the owner type, parameter arity and calling
mode. -/
theorem C6_theorem (f : MethodImpl) (cn : valueTypeName) (mn : String)
    (pts : List valueTypeName) (st : Bool) (rA : RVal) (c : Nat)
    (hinit : initialResult f cn pts st = some (rA, c))
    (hfluent : jsEq rA (ownerAlloc cn).1 = true) :
    testMethod (some f) cn mn pts st = none := by
  rw [testMethod_some_eq]
  unfold validateCandidate
  rw [hinit]
  simp only [hfluent, if_true]

/-- C6 (witness): the fluent operation that returns its own target is
rejected on a Vector3 owner at arity 0. -/
theorem C6_witness :
    testMethod (some selfImpl) .Vector3 opName [] false = none :=
  C6_theorem selfImpl .Vector3 opName [] false
    (.obj 0 (.vec3 (tenths 15) (tenths 27) (tenths 31))) 1
    (by decide) (by decide)

/-- The arity loop started with foundValidSignature false processes the count
list up to and including the first count at which an instance-mode signature
is accepted; counts with only static-mode acceptances, or none, do not stop
it. -/
theorem runCounts_false_eq (impl : Option MethodImpl) (cn : valueTypeName)
    (mn : String) (maxP : Nat) :
    ∀ ks : List Nat,
      runCounts impl cn mn maxP ks false =
        (takeThrough (fun k => (sigsAtCount impl cn mn maxP k).any
            (fun s => !s.isStatic)) ks).flatMap
          (fun k => sigsAtCount impl cn mn maxP k) := by
  intro ks
  induction ks with
  | nil => rfl
  | cons k rest ih =>
    simp only [runCounts, takeThrough]
    by_cases hAny :
        ((sigsAtCount impl cn mn maxP k).any (fun s => !s.isStatic)) = true
    · have hne := isEmpty_false_of_any hAny
      simp [hne, hAny]
    · have hAny2 := Bool.of_not_eq_true hAny
      simp [hAny2, ih]

/-- C3 (amended): for each operation the engine tries parameter counts in
ascending order and its output is the concatenation of the per-count
acceptances over an initial segment of counts that extends up to and
including the first count at which an instance-mode (non-static) signature is
accepted — and over all counts when no instance-mode signature is ever
accepted.  In particular a static-mode acceptance alone never stops the
search, and an instance-mode acceptance stops the search for both calling
modes at once. -/
theorem C3_theorem (impl : Option MethodImpl) (cn : valueTypeName)
    (mn : String) (maxP : Nat) :
    runMethodSearch impl cn mn maxP =
      (takeThrough (fun k => (sigsAtCount impl cn mn maxP k).any
          (fun s => !s.isStatic)) (List.range (maxP + 1))).flatMap
        (fun k => sigsAtCount impl cn mn maxP k) :=
  runCounts_false_eq impl cn mn maxP (List.range (maxP + 1))

set_option maxRecDepth 1000000 in
/-- C3 (counterexample): for an operation callable only statically, the
search accepts a static signature of arity 0 (at parameter count 1, from the
tuple consisting of the owner type alone) and still goes on to accept a
static signature of arity 1 at the next count — so an accepted arity-k
signature in the static mode does not stop the search at higher arities for
that mode, contradicting the per-mode pruning of the claim. -/
theorem C3_counterexample :
    runMethodSearch (some staticOnlyImpl) .Vector2 opName maxParamsConst
      = [⟨.Vector2, opName, [], .ofType .number, true⟩,
         ⟨.Vector2, opName, [.number], .ofType .number, true⟩] := by
  decide

/-- C7: discovery is deterministic — two runs of the database generator
against the same callable surface and the same method enumeration produce
identical signature lists, hence identical multisets of accepted signatures.
The generator is a pure function of its inputs: the model has no other state,
mirroring the fixed baseline values and fixed iteration order of the
source. -/
theorem C7_theorem (env1 env2 : valueTypeName → String → Option MethodImpl)
    (m1 m2 : valueTypeName → List String)
    (henv : env1 = env2) (hm : m1 = m2) :
    (↑(generateDatabase env1 m1) : Multiset EquationSignature)
      = ↑(generateDatabase env2 m2) := by
  subst henv
  subst hm
  rfl

/-- C7 (witness): the two runs on a concrete environment agree. -/
theorem C7_witness :
    (↑(generateDatabase constEnv singleMethodOf) : Multiset EquationSignature)
      = ↑(generateDatabase constEnv singleMethodOf) :=
  C7_theorem constEnv constEnv singleMethodOf singleMethodOf rfl rfl

/-- C8: for every one of the nine catalog types, the variant-A and variant-B
instances produced by createInstance with the default shared prefix 0 and
consecutive allocation ids are not equal under areResultsEqual: the baselines
differ observably for every type, including Quaternion, whose default
variants agree on x, y, z and differ only in w. -/
theorem C8_theorem :
    catalogTypes.all (fun t =>
      !(areResultsEqual (createInstance t .A 0 0).1
        (createInstance t .B 0 (createInstance t .A 0 0).2).1)) = true := by
  decide

/-- A fully faulting candidate is rejected for every owner type, method name,
parameter tuple and calling mode. -/
theorem testMethod_throwing (cn : valueTypeName) (mn : String)
    (pts : List valueTypeName) (st : Bool) :
    testMethod (some throwingImpl) cn mn pts st = none := by
  rw [testMethod_some_eq]
  unfold validateCandidate
  have h : initialResult throwingImpl cn pts st = none := rfl
  rw [h]

/-- A flatMap over a function that always returns the empty list is empty. -/
theorem flatMap_eq_nil_of {α β : Type} (l : List α) (f : α → List β)
    (h : ∀ a, f a = []) : l.flatMap f = [] := by
  induction l with
  | nil => rfl
  | cons a rest ih => simp [h a, ih]

/-- No candidate tuple yields a signature under the fully faulting
candidate. -/
theorem candidateSigs_throwing (cn : valueTypeName) (mn : String)
    (pts : List valueTypeName) :
    candidateSigs (some throwingImpl) cn mn pts = [] := by
  unfold candidateSigs
  rw [testMethod_throwing, testMethod_throwing]
  simp [optToList]

/-- No count pass yields a signature under the fully faulting candidate. -/
theorem sigsAtCount_throwing (cn : valueTypeName) (mn : String) (maxP k : Nat) :
    sigsAtCount (some throwingImpl) cn mn maxP k = [] := by
  unfold sigsAtCount
  exact flatMap_eq_nil_of _ _ (fun pts => candidateSigs_throwing cn mn pts)

/-- The arity loop yields nothing under the fully faulting candidate. -/
theorem runCounts_throwing (cn : valueTypeName) (mn : String) (maxP : Nat) :
    ∀ (ks : List Nat) (fv : Bool),
      runCounts (some throwingImpl) cn mn maxP ks fv = [] := by
  intro ks
  induction ks with
  | nil => intro fv; rfl
  | cons k rest ih =>
    intro fv
    simp only [runCounts, sigsAtCount_throwing]
    simp [ih]

/-- The whole per-method search yields nothing under the fully faulting
candidate. -/
theorem runMethodSearch_throwing (cn : valueTypeName) (mn : String) (maxP : Nat) :
    runMethodSearch (some throwingImpl) cn mn maxP = [] :=
  runCounts_throwing cn mn maxP (List.range (maxP + 1)) false

/-- flatMap respects pointwise equality over the list. -/
theorem flatMap_congr_local {α β : Type} (l : List α) (f g : α → List β)
    (h : ∀ a ∈ l, f a = g a) : l.flatMap f = l.flatMap g := by
  induction l with
  | nil => rfl
  | cons a rest ih =>
    simp only [List.flatMap_cons]
    rw [h a (List.mem_cons_self a rest),
      ih (fun b hb => h b (List.mem_cons_of_mem a hb))]

/-- C9: rejection is silent and local.  A candidate that faults on every call
is rejected (returns null) for every owner type, method name, tuple and
mode; a fault raised during the differential re-invocation is caught and the
candidate rejected; a fault raised during a substituted re-invocation is
caught and validation continues (the candidate is even accepted); and
replacing one single method of the environment by the fully faulting
candidate leaves the database contributions of every other method unchanged —
so no rejection aborts enumeration of other operations or other tuples. -/
theorem C9_theorem (env : valueTypeName → String → Option MethodImpl)
    (methodsOf : valueTypeName → List String) (cn0 : valueTypeName)
    (mn0 : String) :
    (∀ cn mn pts st, testMethod (some throwingImpl) cn mn pts st = none) ∧
    (∀ mn, testMethod (some ownerGateImpl) .Vector3 mn [.number] false = none) ∧
    (∀ mn, testMethod (some vec3OnlyParamImpl) .Vector3 mn [.Vector3] false
        = some ⟨.Vector3, mn, [.Vector3], .ofType .number, false⟩) ∧
    generateDatabase
        (fun cn mn => if cn = cn0 ∧ mn = mn0 then some throwingImpl
          else env cn mn) methodsOf
      = ownerTypes.flatMap (fun cn => (methodsOf cn).flatMap (fun mn =>
          if cn = cn0 ∧ mn = mn0 then []
          else runMethodSearch (env cn mn) cn mn maxParamsConst)) := by
  refine ⟨testMethod_throwing, fun mn => rfl, fun mn => rfl, ?_⟩
  unfold generateDatabase
  apply flatMap_congr_local
  intro cn _
  apply flatMap_congr_local
  intro mn _
  by_cases hc : cn = cn0 ∧ mn = mn0
  · simp only [if_pos hc]
    exact runMethodSearch_throwing cn mn maxParamsConst
  · simp only [if_neg hc]

/-- An accepted signature carries the owner type, method name, tuple and mode
it was tested with, and its return type is a catalog type (never void or
unknown). -/
theorem testMethod_some_inv (impl : Option MethodImpl) (cn : valueTypeName)
    (mn : String) (pts : List valueTypeName) (st : Bool) (s : EquationSignature)
    (h : testMethod impl cn mn pts st = some s) :
    s.className = cn ∧ s.methodName = mn ∧ s.parameters = pts ∧
    s.isStatic = st ∧ ∃ t, s.returnType = RetType.ofType t := by
  unfold testMethod at h
  split at h
  · exact absurd h (by simp)
  · split at h
    · exact absurd h (by simp)
    · rename_i f
      unfold validateCandidate at h
      split at h
      · exact absurd h (by simp)
      · rename_i rA c hin
        split at h
        · exact absurd h (by simp)
        · split at h
          · exact absurd h (by simp)
          · rename_i hfl hvoid
            split at h
            · exact absurd h (by simp)
            · split at h
              · exact absurd h (by simp)
              · obtain rfl := (Option.some.inj h).symm
                refine ⟨rfl, rfl, rfl, rfl, ?_⟩
                cases hg : getTypeName rA with
                | ofType t => exact ⟨t, rfl⟩
                | void => rw [hg] at hvoid; exact absurd rfl hvoid
                | unknown => rw [hg] at hvoid; exact absurd rfl hvoid

/-- Every signature accepted during a count pass comes from a testMethod
acceptance for this owner type and method name. -/
theorem mem_sigsAtCount (impl : Option MethodImpl) (cn : valueTypeName)
    (mn : String) (maxP k : Nat) (s : EquationSignature)
    (h : s ∈ sigsAtCount impl cn mn maxP k) :
    ∃ pts st, testMethod impl cn mn pts st = some s := by
  unfold sigsAtCount at h
  rw [List.mem_flatMap] at h
  obtain ⟨pts, -, hmem⟩ := h
  unfold candidateSigs at hmem
  rw [List.mem_append] at hmem
  rcases hmem with hm | hm
  · cases ht : testMethod impl cn mn pts false with
    | none => rw [ht] at hm; simp [optToList] at hm
    | some s2 =>
      rw [ht] at hm
      simp only [optToList, List.mem_singleton] at hm
      exact ⟨pts, false, by rw [ht, hm]⟩
  · split at hm
    · cases ht : testMethod impl cn mn (pts.drop 1) true with
      | none => rw [ht] at hm; simp [optToList] at hm
      | some s2 =>
        rw [ht] at hm
        simp only [optToList, List.mem_singleton] at hm
        exact ⟨pts.drop 1, true, by rw [ht, hm]⟩
    · simp at hm

/-- Every signature produced by the arity loop comes from some count pass. -/
theorem mem_runCounts (impl : Option MethodImpl) (cn : valueTypeName)
    (mn : String) (maxP : Nat) (s : EquationSignature) :
    ∀ (ks : List Nat) (fv : Bool), s ∈ runCounts impl cn mn maxP ks fv →
      ∃ k, s ∈ sigsAtCount impl cn mn maxP k := by
  intro ks
  induction ks with
  | nil => intro fv h; simp [runCounts] at h
  | cons k rest ih =>
    intro fv h
    simp only [runCounts] at h
    split at h
    · exact ⟨k, h⟩
    · rw [List.mem_append] at h
      rcases h with h | h
      · exact ⟨k, h⟩
      · exact ih _ h

/-- C10: every signature in the generated database has an owner type among
the seven object types iterated by generateDatabase — never number or
boolean — and a return type that is one of the nine catalog types, never
void or unknown, whatever the callable surface and method enumeration. -/
theorem C10_theorem (env : valueTypeName → String → Option MethodImpl)
    (methodsOf : valueTypeName → List String) (s : EquationSignature)
    (h : s ∈ generateDatabase env methodsOf) :
    s.className ∈ ownerTypes ∧ s.className ≠ .number ∧ s.className ≠ .boolean ∧
    ∃ t, s.returnType = RetType.ofType t := by
  unfold generateDatabase at h
  rw [List.mem_flatMap] at h
  obtain ⟨cn, hcn, h⟩ := h
  rw [List.mem_flatMap] at h
  obtain ⟨mn, -, h⟩ := h
  unfold runMethodSearch at h
  obtain ⟨k, hk⟩ := mem_runCounts (env cn mn) cn mn maxParamsConst s _ false h
  obtain ⟨pts, st, ht⟩ := mem_sigsAtCount (env cn mn) cn mn maxParamsConst k s hk
  obtain ⟨hcl, -, -, -, t, hrt⟩ :=
    testMethod_some_inv (env cn mn) cn mn pts st s ht
  subst hcl
  refine ⟨hcn, ?_, ?_, ⟨t, hrt⟩⟩
  · intro hEq
    rw [hEq] at hcn
    exact absurd hcn (by decide)
  · intro hEq
    rw [hEq] at hcn
    exact absurd hcn (by decide)

set_option maxRecDepth 400000 in
/-- C10 (witness): against the environment exposing the constant
number-returning operation, the database contains the Vector2 signature of
that operation, whose owner type is among the seven object types. -/
theorem C10_witness :
    (⟨.Vector2, opName, [], .ofType .number, false⟩ : EquationSignature)
        ∈ generateDatabase constEnv singleMethodOf ∧
    (⟨.Vector2, opName, [], .ofType .number, false⟩ : EquationSignature).className
        ∈ ownerTypes := by
  have h1 : (⟨.Vector2, opName, [], .ofType .number, false⟩ : EquationSignature)
      ∈ generateDatabase constEnv singleMethodOf := by decide
  exact ⟨h1, (C10_theorem constEnv singleMethodOf _ h1).1⟩
